import Mathlib

/-!
Verification development for `pandora_cf_sfcno2.py` (and its helper
`download_all.py`): a script that reads Pandora L2 surface NO2 observations,
matches them with GEOS-CF model fields, integrates the model NO2 profile up to
the observed layer height, and writes a merged CSV table.

The Python source is embedded shallowly:

* machine floats become exact rationals (`ℚ`); float division never raises in
  numpy, and total division on `ℚ` plays that role (theorems that depend on a
  quotient carry explicit non-degeneracy hypotheses);
* `datetime` values become `ℤ` (seconds since 1970-01-01T00:00Z);
* Python dictionaries (`fnl`, `dsl`) become association lists where an update
  prepends a new binding and a lookup takes the most recent one;
* fallible operations (out-of-range indexing, `xr.open_dataset` on a missing
  file, `pd.concat` of an empty list) return `Except String`;
* `strftime` is an external library routine and is passed in as an abstract
  formatting function `strf : String → ℤ → String` (template, time ↦ path);
* the string-munging helpers (`str.split`, `str.replace`, substring tests)
  are re-implemented on `List Char` with a structural fuel argument that is
  always at least the length of the scanned list, so that they evaluate inside
  the kernel.
-/

/-- `VV_TO_MOLEC = 1000./(9.80665*28.9644)` (line 31 of the source):
converts pressure-thickness times mixing ratio into moles per square meter. -/
def VV_TO_MOLEC : ℚ := 1000 / (9.80665 * 28.9644)

/-- `MINDATE = dt.datetime(2020,1,1)` (line 32), as seconds since the epoch. -/
def MINDATE : ℤ := 1577836800

/-! ## Python dictionaries as association lists -/

/-- Lookup in a Python dict modeled as an association list (most recent
binding first).  `dget d k = none` models `k not in d`. -/
def dget {α : Type} (d : List (String × α)) (k : String) : Option α :=
  (d.find? (fun p => p.1 == k)).map (fun p => p.2)

/-- `d[k] = v` on a Python dict: prepend the new binding; `dget` sees the
most recent one, exactly the dict get/set semantics. -/
def dset {α : Type} (d : List (String × α)) (k : String) (v : α) :
    List (String × α) :=
  (k, v) :: d

/-! ## Python string primitives on `List Char` -/

/-- `isSubAt pat l` : does `pat` occur at the head of `l`? -/
def isSubAt : List Char → List Char → Bool
  | [], _ => true
  | _ :: _, [] => false
  | a :: as, b :: bs => a == b && isSubAt as bs

/-- `listHas pat l` : does `pat` occur anywhere inside `l`? -/
def listHas (pat : List Char) : List Char → Bool
  | [] => isSubAt pat []
  | b :: bs => isSubAt pat (b :: bs) || listHas pat bs

/-- Python `pat in line` on strings. -/
def pyContains (line pat : String) : Bool :=
  listHas pat.data line.data

/-- Fuel-driven worker for Python `str.split(sep)`.  Each step consumes at
least one character of the scanned list (the separators in the source are
never empty), so any fuel of at least the list length gives the value of the
unbounded loop. -/
def pySplitAux (sep : List Char) : ℕ → List Char → List Char → List (List Char)
  | 0, l, acc => [acc.reverse ++ l]
  | _ + 1, [], acc => [acc.reverse]
  | n + 1, c :: rest, acc =>
    if sep ≠ [] ∧ isSubAt sep (c :: rest) = true then
      acc.reverse :: pySplitAux sep n ((c :: rest).drop sep.length) []
    else
      pySplitAux sep n rest (c :: acc)

/-- Python `s.split(sep)` for a non-empty separator. -/
def pySplit (s sep : String) : List String :=
  (pySplitAux sep.data (s.data.length + 1) s.data []).map String.mk

/-- Fuel-driven worker for Python `str.replace(pat, rep)`. -/
def pyReplaceAux (pat rep : List Char) : ℕ → List Char → List Char
  | 0, l => l
  | _ + 1, [] => []
  | n + 1, c :: rest =>
    if pat ≠ [] ∧ isSubAt pat (c :: rest) = true then
      rep ++ pyReplaceAux pat rep n ((c :: rest).drop pat.length)
    else
      c :: pyReplaceAux pat rep n rest

/-- Python `s.replace(pat, rep)` for a non-empty pattern. -/
def pyReplace (s pat rep : String) : String :=
  String.mk (pyReplaceAux pat.data rep.data (s.data.length + 1) s.data)

/-! ## Time handling -/

/-- `row.date.round('H')` (pandas): round to the nearest hour, ties going to
the even hour.  `t % 3600` is the Euclidean remainder, in `[0, 3600)`. -/
def roundH (t : ℤ) : ℤ :=
  let r := t % 3600
  if r < 1800 then t - r
  else if 1800 < r then t - r + 3600
  else if (t - r) / 3600 % 2 = 0 then t - r else t - r + 3600

/-- `dt.datetime(d.year, d.month, d.day)` : truncate a timestamp to midnight. -/
def truncToDay (t : ℤ) : ℤ :=
  86400 * (t / 86400)

/-- Lines 57-58 of the source: `maxdate = today - 3 days`, truncated. -/
def maxdateOf (today : ℤ) : ℤ :=
  truncToDay (today - 3 * 86400)

/-! ## The record parser `_read_pandora` -/

/-- One parsed observation record (one row of the pandas frame built on
line 222 of the source).  Note that the local variable `sfcmr` of the source
holds `float(vals[55])` and is stored in the column `pandora_no2_sfcconc`. -/
structure Row where
  date : ℤ
  pandora_no2_qval : ℤ
  pandora_no2_sfcconc : ℚ
  pandora_no2_l1hgt : ℚ
  pandora_no2_l1col : ℚ
deriving DecidableEq, Repr

/-- The Python value parsers `datetime.strptime`, `int`, `float`, abstracted
as total functions (their failure on garbage input, `ValueError`, is outside
every claim; index errors are modeled, see `getv`). -/
structure PyParsers where
  pdate : String → ℤ
  pint : String → ℤ
  pfloat : String → ℚ

/-- `vals[i]` on a Python list: `IndexError` when out of range. -/
def getv (vals : List String) (i : ℕ) : Except String String :=
  match vals.get? i with
  | some s => Except.ok s
  | none => Except.error "IndexError"

/-- Lines 215-222 of the source: one data line is the text before the first
comma, split on single spaces; fields 0, 52, 55, 67, 68 are read. -/
def parseRecord (P : PyParsers) (line : String) : Except String Row := do
  let vals := pySplit ((pySplit line ",").headD "") " "
  let idate := P.pdate (← getv vals 0)
  let qval := P.pint (← getv vals 52)
  let sfcmr := P.pfloat (← getv vals 55)
  let l1hgt := P.pfloat (← getv vals 67)
  let l1col := P.pfloat (← getv vals 68)
  Except.ok ⟨idate, qval, sfcmr, l1hgt, l1col⟩

/-- The single-quote character, as a string. -/
def sqChr : String :=
  String.mk [Char.ofNat 39]

/-- `str(f.readline())` wraps the raw bytes as `b[quote]...[quote]`. -/
def strB (s : String) : String :=
  "b" ++ sqChr ++ s ++ sqChr

/-- One `f.readline()` followed by `str(...)`: a real line keeps its (escaped)
newline; at end of file the result is the constant `str(b[quote][quote])`,
which is returned again and again, forever. -/
def pyReadline (lines : List String) : String × List String :=
  match lines with
  | [] => (strB "", [])
  | l :: ls => (strB (l ++ "\\n"), ls)

/-- Line 232 of the source: `line.split(':')[1]` with the blanks, the escaped
newline and the quotes removed.  (The index-1 access is modeled with a
default; it is only reached on lines that contain the label, which in the
data format always carry a colon.) -/
def cleanVal (line : String) : String :=
  pyReplace (pyReplace (pyReplace ((pySplit line ":").getD 1 "") " " "")
    "\\n" "") sqChr ""

/-- Lines 226-236 of the source: the metadata scan
`while lat is None or lon is None: line = str(f.readline()); ...`.
The loop body never breaks out on end of file — `f.readline()` keeps
returning the empty bytes object — so the embedding carries a fuel argument;
`none` means the loop has not produced a result within `fuel` iterations.
Note the source overwrites an already-found value if a label appears twice,
and that is reproduced here. -/
def scanLatLon (pf : String → ℚ) :
    ℕ → List String → Option ℚ → Option ℚ → Option (ℚ × ℚ)
  | _, _, some la, some lo => some (la, lo)
  | 0, _, _, _ => none
  | fuel + 1, lines, lat, lon =>
    let rl := pyReadline lines
    let lat2 := if pyContains rl.1 "Location latitude" then
        some (pf (cleanVal rl.1)) else lat
    let lon2 := if pyContains rl.1 "Location longitude" then
        some (pf (cleanVal rl.1)) else lon
    scanLatLon pf fuel rl.2 lat2 lon2

/-- Lines 207-237 of the source.  `pd.read_csv(..., skiprows=93)` drops 93
preamble lines and one header line, every remaining line becomes a record;
`pd.concat` of an empty list raises `ValueError`.  The latitude/longitude
scan then re-reads the file from the start. -/
def _read_pandora (P : PyParsers) (scanFuel : ℕ) (file : List String) :
    Except String (List Row × ℚ × ℚ) := do
  let rows ← (file.drop 94).mapM (parseRecord P)
  if rows = [] then
    Except.error "ValueError"
  else
    match scanLatLon P.pfloat scanFuel file none none with
    | some (la, lo) => Except.ok (rows, la, lo)
    | none => Except.error "NONTERMINATION"

/-! ## Gridded-field datasets and the per-family cache of `_match_cf` -/

/-- The model fields this script extracts from one file, already selected at
the nearest grid cell (`.sel(lon=lon, lat=lat, method='nearest')`) and at the
single time slot of the file (`values[0, ...]`).  Profile fields are kept in
file order (model top first, surface last). -/
structure DSContent where
  zpbl : ℚ
  no2 : List ℚ
  ps : ℚ
  t : List ℚ
  delp : List ℚ
  zl : List ℚ
  q : List ℚ
deriving DecidableEq, Repr

/-- An open `xarray` dataset handle: the path it was opened from plus its
contents. -/
structure Dataset where
  path : String
  content : DSContent
deriving DecidableEq, Repr

/-- `xr.open_dataset(path)`: `FileNotFoundError` when the path is absent from
the file system (modeled as an association list from path to contents). -/
def open_dataset (fs : List (String × DSContent)) (path : String) :
    Except String Dataset :=
  match dget fs path with
  | some c => Except.ok ⟨path, c⟩
  | none => Except.error "FileNotFoundError"

/-- Outcome of the cache probe
`readX = True; if fam in fnl and fnl[fam] == path: ds = dsl[fam]; readX = False`.
`keyError` is the (unreachable from an initially empty pair of dicts) case
where `fnl` has the family but `dsl` does not. -/
inductive CacheStep where
  | hit (ds : Dataset)
  | keyError
  | miss
deriving DecidableEq, Repr

/-- The cache probe shared by the three collection blocks of `_match_cf`. -/
def cacheLookup (fnl : List (String × String)) (dsl : List (String × Dataset))
    (fam path : String) : CacheStep :=
  match dget fnl fam with
  | some p =>
    if p = path then
      match dget dsl fam with
      | some ds => CacheStep.hit ds
      | none => CacheStep.keyError
    else CacheStep.miss
  | none => CacheStep.miss

/-- The met/pbl collection pattern of `_match_cf` (lines 146-168): probe the
cache; on a miss, `xr.open_dataset` the path with no existence check (a
missing file raises) and replace the cached entry. -/
def openFam (fs : List (String × DSContent)) (fnl : List (String × String))
    (dsl : List (String × Dataset)) (fam path : String) :
    Except String (Dataset × List (String × String) × List (String × Dataset)) :=
  match cacheLookup fnl dsl fam path with
  | CacheStep.hit ds => Except.ok (ds, fnl, dsl)
  | CacheStep.keyError => Except.error "KeyError"
  | CacheStep.miss => do
    let ds ← open_dataset fs path
    Except.ok (ds, dset fnl fam path, dset dsl fam ds)

/-! ## The column integration and unit conversions -/

/-- Line 176 of the source: `sfcconc = iconc * prs / ( 8.314 * temp )`. -/
def sfcconcOf (iconc prs temp : ℚ) : ℚ :=
  iconc * prs / (8.314 * temp)

/-- Line 203 of the source:
`sfcmr_pandora = row.pandora_no2_sfcconc / prs * ( 8.314 * temp ) * 1.0e9 / (1.-q[0])`. -/
def sfcmrPandoraOf (conc prs temp q0 : ℚ) : ℚ :=
  conc / prs * (8.314 * temp) * 1.0e9 / (1 - q0)

/-- Lines 183-200 of the source: the `while inML` integration loop, with the
arrays already reversed to surface-first order and `acc` the running `l1col`.
A Python index out of range raises `IndexError`; the guard here is exactly the
range every indexing of the iteration needs (`zl[iL]`, `zl[iL+1]`, `no2[iL]`,
`delp[iL]`, `q[iL]`; `zl[iL-1]` is in range whenever `zl[iL]` is).  The two
statements after the increment are
`if frac < 1.0: inML = False` — the only exit of the loop — and the
line `inML: False` under `if iL>=len(zl)+1`, which is a bare variable
annotation, not an assignment: it changes nothing and is therefore not
modeled.  As a consequence the loop keeps running past the last layer and
dies on the out-of-range `zl[iL+1]` before that guard could matter. -/
def matchLoop (no2 delp q zl : List ℚ) (ihgt : ℚ) (iL : ℕ) (acc : ℚ) :
    Except String ℚ :=
  if h : iL + 1 < zl.length ∧ iL < no2.length ∧ iL < delp.length ∧
      iL < q.length then
    -- layer top height
    let toph := (zl.getD iL 0 + zl.getD (iL + 1) 0) / 2
    let frac : ℚ :=
      if toph > ihgt then
        let both := if 0 < iL then (zl.getD iL 0 + zl.getD (iL - 1) 0) / 2
          else 0
        (ihgt - both) / (toph - both)
      else 1
    let acc2 := acc + no2.getD iL 0 * delp.getD iL 0 * (1 - q.getD iL 0) *
      VV_TO_MOLEC * frac
    if frac < 1 then Except.ok acc2
    else matchLoop no2 delp q zl ihgt (iL + 1) acc2
  else Except.error "IndexError"
termination_by zl.length - iL
decreasing_by
  obtain ⟨h1, -⟩ := h
  omega

/-- `values[0,-1]` : the last entry of a per-layer array (`IndexError` when
the profile is empty). -/
def lastv (l : List ℚ) : Except String ℚ :=
  match l.getLast? with
  | some v => Except.ok v
  | none => Except.error "IndexError"

/-- `arr[0]` on a per-layer array. -/
def headv (l : List ℚ) : Except String ℚ :=
  match l.head? with
  | some v => Except.ok v
  | none => Except.error "IndexError"

/-- The five derived quantities `_match_cf` returns alongside the two caches.
`none` is the `np.nan` sentinel from line 126 of the source. -/
structure MatchResult where
  sfcmr : Option ℚ
  sfcconc : Option ℚ
  l1col : Option ℚ
  pbl : Option ℚ
  sfcmr_pandora : Option ℚ
deriving DecidableEq, Repr

/-- All five fields still at their `np.nan` initialization. -/
def nanMatchResult : MatchResult :=
  ⟨none, none, none, none, none⟩

/-- The two `strftime` path templates of `parse_args`. -/
structure CFArgs where
  cf_template : String
  pbl_template : String
deriving DecidableEq, Repr

/-- Lines 121-204 of the source, `_match_cf`.  `strf t s` abstracts
`s.strftime(t)`.  The `chm` block is the only one guarded by
`os.path.isfile`: a missing chemistry file prints a warning and returns the
all-`np.nan` initialization together with the caches unchanged, while a
missing `met` or `pbl` file raises out of `xr.open_dataset`. -/
def _match_cf (strf : String → ℤ → String) (args : CFArgs)
    (fs : List (String × DSContent)) (row : Row) (lat lon : ℚ)
    (fnl : List (String × String)) (dsl : List (String × Dataset)) :
    Except String
      (MatchResult × List (String × String) × List (String × Dataset)) := do
  -- read new file if needed. Round to hour to match up with GEOS-CF stamps
  let idate := roundH row.date
  let templ := strf args.cf_template idate
  -- chm collection
  let ifilec := pyReplace templ "<col>" "chm"
  let chm? :
      Option (Dataset × List (String × String) × List (String × Dataset)) ←
    match cacheLookup fnl dsl "chm" ifilec with
    | CacheStep.hit ds => pure (some (ds, fnl, dsl))
    | CacheStep.keyError => Except.error "KeyError"
    | CacheStep.miss =>
      match dget fs ifilec with
      | none => pure none   -- not os.path.isfile: warn, return the nan row
      | some c => pure (some (⟨ifilec, c⟩, dset fnl "chm" ifilec,
          dset dsl "chm" ⟨ifilec, c⟩))
  match chm? with
  | none => pure (nanMatchResult, fnl, dsl)
  | some (dsc, fnl1, dsl1) => do
    -- met collection
    let ifilem := pyReplace templ "<col>" "met"
    let (dsm, fnl2, dsl2) ← openFam fs fnl1 dsl1 "met" ifilem
    -- for pbl collection, use tavg collection. Hence no rounding of the date
    let ifilep := strf args.pbl_template row.date
    let (dsp, fnl3, dsl3) ← openFam fs fnl2 dsl2 "pbl" ifilep
    -- get pbl
    let pbl := dsp.content.zpbl
    -- surface NO2 mixing ratios in ppb and mol/m3
    let iconc ← lastv dsc.content.no2
    let prs := dsm.content.ps
    let temp ← lastv dsm.content.t
    let sfcmr := iconc * 1.0e9
    let sfcconc := sfcconcOf iconc prs temp
    -- partial column in moles/m2
    let ihgt := row.pandora_no2_l1hgt * 1000
    let delp := dsm.content.delp.reverse
    let zl := dsm.content.zl.reverse
    let q := dsm.content.q.reverse
    let no2 := dsc.content.no2.reverse
    let l1col ← matchLoop no2 delp q zl ihgt 0 0
    -- convert the reported pandora surface concentration to ppbv; dry out
    let q0 ← headv q
    let sfcmr_pandora := sfcmrPandoraOf row.pandora_no2_sfcconc prs temp q0
    pure ({ sfcmr := some sfcmr, sfcconc := some sfcconc,
            l1col := some l1col, pbl := some pbl,
            sfcmr_pandora := some sfcmr_pandora }, fnl3, dsl3)

/-! ## The orchestrator `main` -/

/-- The conjunction of the three row filters of lines 59-61 of the source
(`date >= MINDATE`, `date <= maxdate`, `0 < l1hgt < 15`). -/
def keepRow (today : ℤ) (r : Row) : Bool :=
  decide (MINDATE ≤ r.date) && decide (r.date ≤ maxdateOf today) &&
    decide (0 < r.pandora_no2_l1hgt) && decide (r.pandora_no2_l1hgt < 15)

/-- Lines 59-61 of the source: the three successive `.loc` filters. -/
def filterPand (today : ℤ) (rows : List Row) : List Row :=
  ((rows.filter (fun r => decide (MINDATE ≤ r.date))).filter
      (fun r => decide (r.date ≤ maxdateOf today))).filter
    (fun r => decide (0 < r.pandora_no2_l1hgt) &&
      decide (r.pandora_no2_l1hgt < 15))

/-- One row of the written output table: the observation columns plus the
five populated derived columns and the station coordinates. -/
structure MergedRow where
  row : Row
  pandora_no2_sfcmr : Option ℚ
  cf_no2_sfcmr : Option ℚ
  cf_no2_sfcconc : Option ℚ
  cf_no2_l1col : Option ℚ
  cf_no2_pbl : Option ℚ
  lat : ℚ
  lon : ℚ
deriving DecidableEq, Repr

/-- Lines 76-84 of the source: how one `_match_cf` result is written into the
output columns of its row. -/
def mergeRow (r : Row) (res : MatchResult) (lat lon : ℚ) : MergedRow :=
  { row := r, pandora_no2_sfcmr := res.sfcmr_pandora,
    cf_no2_sfcmr := res.sfcmr, cf_no2_sfcconc := res.sfcconc,
    cf_no2_l1col := res.l1col, cf_no2_pbl := res.pbl, lat := lat, lon := lon }

/-- Lines 71-80 of the source: the per-record loop, threading the two cache
dictionaries from record to record.  An exception escaping `_match_cf` is not
caught anywhere and aborts the run. -/
def processRows (strf : String → ℤ → String) (args : CFArgs)
    (fs : List (String × DSContent)) (lat lon : ℚ) :
    List Row → List (String × String) → List (String × Dataset) →
    Except String (List MergedRow)
  | [], _, _ => Except.ok []
  | r :: rest, fnl, dsl => do
    let (res, fnl2, dsl2) ← _match_cf strf args fs r lat lon fnl dsl
    let tail ← processRows strf args fs lat lon rest fnl2 dsl2
    Except.ok (mergeRow r res lat lon :: tail)

/-- What `main` did. -/
inductive MainResult where
  | skippedObs
  | skippedOut
  | wrote (table : List MergedRow)
deriving DecidableEq, Repr

/-- The file-system state `main` touches: the observation files under `obs/`,
the merged CSV tables under `merged_csv/` (a written table is kept as its
list of rows), the model files, and the wall clock. -/
structure World where
  obsFiles : List (String × List String)
  outFiles : List (String × List MergedRow)
  cfFiles : List (String × DSContent)
  today : ℤ
deriving DecidableEq, Repr

/-- Lines 35-88 of the source, `main` (the plotting blocks are behind
`if False:` and dead).  `basename` is the last component of the site's
`pandora_url`.  The two skip checks come first: a missing observation file
and an already existing output file each end the run with no work and no
error. -/
def mainRun (strf : String → ℤ → String) (args : CFArgs) (P : PyParsers)
    (scanFuel : ℕ) (basename : String) (w : World) :
    Except String (MainResult × World) := do
  let ifile := "obs/" ++ basename
  match dget w.obsFiles ifile with
  | none => Except.ok (MainResult.skippedObs, w)
  | some obsfile =>
    let ofile := "merged_csv/" ++ pyReplace basename ".txt" "+GEOSCF.csv"
    if (dget w.outFiles ofile).isSome then
      Except.ok (MainResult.skippedOut, w)
    else do
      let (pand, lat, lon) ← _read_pandora P scanFuel obsfile
      -- limit data to the date window and the plausible layer heights
      let kept := filterPand w.today pand
      -- populate CF fields and write to file
      let merged ← processRows strf args w.cfFiles lat lon kept [] []
      Except.ok (MainResult.wrote merged,
        { w with outFiles := dset w.outFiles ofile merged })

/-! ## Closed-form layer geometry (the re-derivation the spec states) -/

/-- The layer-top height of layer `i`: the midpoint of `z[i]` and `z[i+1]`. -/
def layerTop (zl : List ℚ) (i : ℕ) : ℚ :=
  (zl.getD i 0 + zl.getD (i + 1) 0) / 2

/-- The layer-bottom height of layer `i`: the midpoint of `z[i]` and
`z[i-1]`, or `0` for the surface layer. -/
def layerBot (zl : List ℚ) (i : ℕ) : ℚ :=
  if 0 < i then (zl.getD i 0 + zl.getD (i - 1) 0) / 2 else 0

/-- The fractional overlap of layer `i` with the column `[0, ihgt]` used by
the source for the terminating layer. -/
def layerFrac (zl : List ℚ) (ihgt : ℚ) (i : ℕ) : ℚ :=
  (ihgt - layerBot zl i) / (layerTop zl i - layerBot zl i)

/-- The full-layer contribution `x[i]*Δp[i]*(1-q[i])*K` of layer `i`. -/
def layerTerm (no2 delp q : List ℚ) (i : ℕ) : ℚ :=
  no2.getD i 0 * delp.getD i 0 * (1 - q.getD i 0) * VV_TO_MOLEC

/-! ## Concrete data used by the closed witnesses -/

/-- A trivial formatter standing in for `strftime`: it returns the template
unchanged. -/
def strf0 : String → ℤ → String := fun s _ => s

/-- Parsers that ignore their input (`date` parses to the epoch, which is
before `MINDATE`). -/
def egParsers : PyParsers :=
  ⟨fun _ => 0, fun _ => 0, fun _ => 0⟩

/-- A well-formed data line: 69 space-separated fields. -/
def egDataLine : String :=
  String.mk (List.intercalate [Char.ofNat 32] (List.replicate 69 [Char.ofNat 48]))

/-- A well-formed observation file: the two labeled coordinate lines, padding
up to the 93 preamble lines plus the header line, then one data record. -/
def egObsLines : List String :=
  ["Location latitude: 38", "Location longitude: -77"] ++
    List.replicate 91 "pad" ++ ["hdr", egDataLine]

/-- A world holding exactly that observation file and nothing else. -/
def egWorld : World :=
  ⟨[("obs/f.txt", egObsLines)], [], [], 2000000000⟩

/-! ## Helper lemmas on the layer geometry and the integration loop -/

theorem VV_pos : 0 < VV_TO_MOLEC := by norm_num [VV_TO_MOLEC]

theorem dget_dset_self {α : Type} (d : List (String × α)) (k : String)
    (v : α) : dget (dset d k v) k = some v := by
  simp [dget, dset, List.find?]

/-- The integration loop, started anywhere at or below the first layer whose
top exceeds the target, returns the closed-form layer sum: every full layer
up to (excluding) `j` plus the fractional contribution of layer `j`. -/
theorem matchLoop_closed (no2 delp q zl : List ℚ) (H : ℚ) (j : ℕ)
    (hjn : j + 1 < zl.length) (h1 : j < no2.length) (h2 : j < delp.length)
    (h3 : j < q.length)
    (hbelow : ∀ k, k < j → ¬ (H < layerTop zl k))
    (habove : H < layerTop zl j)
    (hfrac : layerFrac zl H j < 1) :
    ∀ n i acc, i ≤ j → j - i = n →
      matchLoop no2 delp q zl H i acc
        = Except.ok (acc + (∑ k in Finset.Ico i j, layerTerm no2 delp q k)
            + layerTerm no2 delp q j * layerFrac zl H j) := by
  intro n
  induction n with
  | zero =>
    intro i acc hij hn
    have hi : i = j := by omega
    subst hi
    rw [matchLoop, dif_pos ⟨hjn, h1, h2, h3⟩]
    simp only [gt_iff_lt]
    simp only [layerTop] at habove
    rw [if_pos habove]
    simp only [layerFrac, layerBot, layerTop] at hfrac
    rw [if_pos hfrac]
    rw [Finset.Ico_self, Finset.sum_empty]
    simp only [layerTerm, layerFrac, layerBot, layerTop]
    ring_nf
  | succ n ih =>
    intro i acc hij hn
    have hij' : i < j := by omega
    rw [matchLoop, dif_pos ⟨by omega, by omega, by omega, by omega⟩]
    simp only [gt_iff_lt]
    simp only [layerTop] at hbelow
    rw [if_neg (hbelow i hij')]
    rw [if_neg (by norm_num : ¬ ((1 : ℚ) < 1))]
    rw [ih (i + 1) _ (by omega) (by omega)]
    rw [Finset.sum_eq_sum_Ico_succ_bot hij']
    simp only [layerTerm]
    ring_nf

theorem layerDenomPos (zl : List ℚ) (hz0 : 0 ≤ zl.getD 0 0)
    (hmono : ∀ i, i + 1 < zl.length → zl.getD i 0 < zl.getD (i + 1) 0)
    (j : ℕ) (hj : j + 1 < zl.length) :
    0 < layerTop zl j - layerBot zl j := by
  cases j with
  | zero =>
    have h := hmono 0 hj
    simp only [layerTop, layerBot, if_neg (lt_irrefl 0)]
    linarith
  | succ m =>
    have h1 := hmono m (by omega)
    have h2 := hmono (m + 1) (by omega)
    simp only [layerTop, layerBot, if_pos (Nat.succ_pos m), Nat.add_sub_cancel]
    linarith

theorem layerTop_lt (zl : List ℚ)
    (hmono : ∀ i, i + 1 < zl.length → zl.getD i 0 < zl.getD (i + 1) 0)
    (k : ℕ) (hk : k + 2 < zl.length) :
    layerTop zl k < layerTop zl (k + 1) := by
  have h1 := hmono k (by omega)
  have h2 := hmono (k + 1) (by omega)
  simp only [layerTop]
  linarith

theorem layerTop_mono (zl : List ℚ)
    (hmono : ∀ i, i + 1 < zl.length → zl.getD i 0 < zl.getD (i + 1) 0)
    {a b : ℕ} (hab : a ≤ b) (hb : b + 1 < zl.length) :
    layerTop zl a ≤ layerTop zl b := by
  induction b with
  | zero =>
    have : a = 0 := by omega
    subst this
    exact le_refl _
  | succ m ih =>
    rcases Nat.eq_or_lt_of_le hab with h | h
    · subst h
      exact le_refl _
    · exact le_trans (ih (by omega) (by omega))
        (le_of_lt (layerTop_lt zl hmono m (by omega)))

theorem layerBot_succ (zl : List ℚ) (j : ℕ) :
    layerBot zl (j + 1) = layerTop zl j := by
  simp only [layerBot, layerTop, if_pos (Nat.succ_pos j), Nat.add_sub_cancel]
  ring

theorem layerFrac_lt_one (zl : List ℚ) (H : ℚ) (j : ℕ)
    (hd : 0 < layerTop zl j - layerBot zl j) (habove : H < layerTop zl j) :
    layerFrac zl H j < 1 := by
  rw [layerFrac, div_lt_one hd]
  linarith

theorem layerFrac_nonneg (zl : List ℚ) (H : ℚ) (j : ℕ)
    (hd : 0 < layerTop zl j - layerBot zl j) (hb : layerBot zl j ≤ H) :
    0 ≤ layerFrac zl H j :=
  div_nonneg (by linarith) (le_of_lt hd)

/-! ## C1 -/

/-- C1 (corrected): for a profile with strictly increasing mid-layer heights
starting at or above ground, and a first layer `j` (with a computable top)
whose top exceeds the target `H`, the loop from the surface returns exactly
the closed-form sum of all full layers below `j` plus the single fractional
contribution of layer `j`; and, when the mixing ratios and pressure
thicknesses are non-negative, the target height is non-negative **and every
specific humidity is at most 1** (the correction: mere non-negativity of `q`
does not suffice), the running sum never decreases: the loop restarted from
any intermediate state returns at least its accumulator. -/
theorem integration_closed_form (no2 delp q zl : List ℚ) (H : ℚ) (j : ℕ)
    (hjn : j + 1 < zl.length) (h1 : j < no2.length) (h2 : j < delp.length)
    (h3 : j < q.length)
    (hz0 : 0 ≤ zl.getD 0 0)
    (hmono : ∀ i, i + 1 < zl.length → zl.getD i 0 < zl.getD (i + 1) 0)
    (hbelow : ∀ k, k < j → layerTop zl k ≤ H)
    (habove : H < layerTop zl j) :
    matchLoop no2 delp q zl H 0 0
      = Except.ok ((∑ k in Finset.range j, layerTerm no2 delp q k)
          + layerTerm no2 delp q j * layerFrac zl H j)
    ∧ (0 ≤ H → (∀ i, i < no2.length → 0 ≤ no2.getD i 0) →
       (∀ i, i < delp.length → 0 ≤ delp.getD i 0) →
       (∀ i, i < q.length → q.getD i 0 ≤ 1) →
       ∀ i acc, i ≤ j →
         ∃ r, matchLoop no2 delp q zl H i acc = Except.ok r ∧ acc ≤ r) := by
  have hd := layerDenomPos zl hz0 hmono j hjn
  have hfrac := layerFrac_lt_one zl H j hd habove
  have hbelow' : ∀ k, k < j → ¬ (H < layerTop zl k) := fun k hk =>
    not_lt.mpr (hbelow k hk)
  constructor
  · rw [matchLoop_closed no2 delp q zl H j hjn h1 h2 h3 hbelow' habove hfrac
      j 0 0 (Nat.zero_le j) (by omega)]
    rw [Finset.range_eq_Ico]
    norm_num
  · intro h0 hno2 hdelp hq i acc hij
    refine ⟨_, matchLoop_closed no2 delp q zl H j hjn h1 h2 h3 hbelow' habove
      hfrac (j - i) i acc hij rfl, ?_⟩
    have hterm : ∀ k, k < j → 0 ≤ layerTerm no2 delp q k := by
      intro k hk
      have hk3 : k < q.length := by omega
      have := hq k hk3
      exact mul_nonneg (mul_nonneg (mul_nonneg (hno2 k (by omega))
        (hdelp k (by omega))) (by linarith)) (le_of_lt VV_pos)
    have hsum : 0 ≤ ∑ k in Finset.Ico i j, layerTerm no2 delp q k := by
      apply Finset.sum_nonneg
      intro k hk
      exact hterm k (Finset.mem_Ico.mp hk).2
    have hbot : layerBot zl j ≤ H := by
      cases j with
      | zero => simp only [layerBot, if_neg (lt_irrefl 0)]; exact h0
      | succ m => rw [layerBot_succ]; exact hbelow m (Nat.lt_succ_self m)
    have htermj : 0 ≤ layerTerm no2 delp q j := by
      have := hq j h3
      exact mul_nonneg (mul_nonneg (mul_nonneg (hno2 j h1) (hdelp j h2))
        (by linarith)) (le_of_lt VV_pos)
    have hfr := layerFrac_nonneg zl H j hd hbot
    nlinarith [mul_nonneg htermj hfr]

/-- Counterexample breaking the literal monotonicity clause of C1: all the
inputs of this profile are non-negative (the specific humidity of the first
layer is `2`), yet the loop, started with the running sum at `0`, returns a
negative total, so the running sum decreased. -/
theorem integration_monotone_counterexample :
    matchLoop [1, 1] [1, 1] [2, 0] [1, 3, 5] (5 / 2) 0 0
      = Except.ok (-(3 / 4) * VV_TO_MOLEC)
    ∧ -(3 / 4) * VV_TO_MOLEC < 0 := by
  constructor
  · rw [matchLoop]
    norm_num
    rw [matchLoop]
    norm_num
    ring
  · norm_num [VV_TO_MOLEC]

/-- Witness for C1 at a concrete profile. -/
theorem integration_closed_form_witness :
    matchLoop [1, 2] [1, 1] [0, 0] [100, 300, 500] 250 0 0
      = Except.ok ((∑ k in Finset.range 1, layerTerm [1, 2] [1, 1] [0, 0] k)
          + layerTerm [1, 2] [1, 1] [0, 0] 1
            * layerFrac [100, 300, 500] 250 1) :=
  (integration_closed_form [1, 2] [1, 1] [0, 0] [100, 300, 500] 250 1
    (by norm_num) (by norm_num) (by norm_num) (by norm_num) (by norm_num)
    (by intro i hi
        simp only [List.length_cons, List.length_nil] at hi
        have h2 : i < 2 := by omega
        interval_cases i <;> norm_num)
    (by intro k hk; interval_cases k <;> norm_num [layerTop])
    (by norm_num [layerTop])).1

/-! ## C2 -/

/-- Counterexample to C2 as stated: `2` is exactly the top boundary of the
first layer of the profile `zl = [1, 3]` (second conjunct), yet the loop does
not stop at that layer — after consuming it with `frac = 1.0` it moves on to
the next layer, whose top needs the out-of-range `zl[2]`, and dies with an
`IndexError` instead of returning the integral. -/
theorem boundary_exact_counterexample :
    matchLoop [1, 1] [1, 1] [0, 0] [1, 3] 2 0 0 = Except.error "IndexError"
    ∧ (2 : ℚ) = layerTop [1, 3] 0 := by
  constructor
  · rw [matchLoop]
    norm_num
    rw [matchLoop]
    norm_num
  · norm_num [layerTop]

/-- C2 (corrected): when the target height equals the top boundary of layer
`j` **and the next layer still has a computable top** (`j + 2 < len zl`),
layer `j` is consumed with `frac = 1.0`, the loop then enters layer `j + 1`,
assigns it `frac = 0` (second conjunct) — so nothing is over-counted — and
halts there; the result is exactly the full-layer sum through layer `j`.
(When `j` is the last layer with a computable top the loop instead fails
with an `IndexError`, see the counterexample.) -/
theorem boundary_exact (no2 delp q zl : List ℚ) (j : ℕ)
    (hjn : j + 2 < zl.length) (h1 : j + 1 < no2.length)
    (h2 : j + 1 < delp.length) (h3 : j + 1 < q.length)
    (hmono : ∀ i, i + 1 < zl.length → zl.getD i 0 < zl.getD (i + 1) 0) :
    matchLoop no2 delp q zl (layerTop zl j) 0 0
      = Except.ok (∑ k in Finset.range (j + 1), layerTerm no2 delp q k)
    ∧ layerFrac zl (layerTop zl j) (j + 1) = 0 := by
  have hfrac0 : layerFrac zl (layerTop zl j) (j + 1) = 0 := by
    rw [layerFrac, layerBot_succ, sub_self, zero_div]
  have hbelow' : ∀ k, k < j + 1 → ¬ (layerTop zl j < layerTop zl k) := by
    intro k hk
    exact not_lt.mpr (layerTop_mono zl hmono (by omega) (by omega))
  have habove' : layerTop zl j < layerTop zl (j + 1) :=
    layerTop_lt zl hmono j hjn
  have hfrac1 : layerFrac zl (layerTop zl j) (j + 1) < 1 := by
    rw [hfrac0]; norm_num
  constructor
  · rw [matchLoop_closed no2 delp q zl (layerTop zl j) (j + 1) (by omega)
      h1 h2 h3 hbelow' habove' hfrac1 (j + 1) 0 0 (Nat.zero_le _) (by omega)]
    rw [hfrac0, mul_zero, add_zero, zero_add, Finset.range_eq_Ico]
  · exact hfrac0

/-- Witness for C2 at a concrete profile where the target is the top of the
surface layer. -/
theorem boundary_exact_witness :
    matchLoop [1, 2] [1, 1] [0, 0] [100, 300, 500]
        (layerTop [100, 300, 500] 0) 0 0
      = Except.ok (∑ k in Finset.range 1, layerTerm [1, 2] [1, 1] [0, 0] k) :=
  (boundary_exact [1, 2] [1, 1] [0, 0] [100, 300, 500] 0
    (by norm_num) (by norm_num) (by norm_num) (by norm_num)
    (by intro i hi
        simp only [List.length_cons, List.length_nil] at hi
        have h2 : i < 2 := by omega
        interval_cases i <;> norm_num)).1

/-! ## C3 -/

/-- C3 (code bug): a target height above every layer top is supposed to end
the integration with a warning and the partial sum (`print` followed by
`inML: False` in the source), but the loop-exit statement is a bare variable
annotation, not an assignment, and the guard `iL >= len(zl)+1` could not in
any case fire before `zl[iL+1]` is read out of range: with `zl = [100, 300]`
and target `10000` the loop consumes the only complete layer and then raises
`IndexError` instead of warning and returning the accumulated sum. -/
theorem atmosphere_exceeded_index_error :
    matchLoop [1, 1] [1, 1] [0, 0] [100, 300] 10000 0 0
      = Except.error "IndexError" := by
  rw [matchLoop]
  norm_num
  rw [matchLoop]
  norm_num

/-! ## C4 -/

/-- Counterexample to C4 as stated: with `P = T = 1` and `q[0] = 1/2` the
inverse conversion applied to the forward conversion of the mixing ratio `1`
yields `2e9`, not the original `1e9` — the inverse divides by `(1 - q[0])`
but the forward conversion never multiplied by it. -/
theorem roundtrip_counterexample :
    sfcmrPandoraOf (sfcconcOf 1 1 1) 1 1 (1 / 2) ≠ 1 * 1.0e9 := by
  norm_num [sfcmrPandoraOf, sfcconcOf]

/-- C4 (corrected): for non-degenerate surface pressure and temperature, the
forward conversion (line 176) followed by the inverse conversion (line 203)
returns the original mixing ratio in ppb **divided by the dry-air factor
`(1 - q[0])`**; it equals the original `x0 * 1e9` exactly when the surface
specific humidity is zero. -/
theorem roundtrip_theorem (x0 P T q0 : ℚ) (hP : P ≠ 0) (hT : T ≠ 0) :
    sfcmrPandoraOf (sfcconcOf x0 P T) P T q0 = x0 * 1.0e9 / (1 - q0)
    ∧ (q0 = 0 → sfcmrPandoraOf (sfcconcOf x0 P T) P T q0 = x0 * 1.0e9) := by
  have h8 : (8.314 : ℚ) * T ≠ 0 := mul_ne_zero (by norm_num) hT
  have hnum : x0 * P / (8.314 * T) / P * (8.314 * T) * 1.0e9 = x0 * 1.0e9 := by
    field_simp
    ring
  have h : sfcmrPandoraOf (sfcconcOf x0 P T) P T q0
      = x0 * 1.0e9 / (1 - q0) := by
    simp only [sfcmrPandoraOf, sfcconcOf]
    rw [hnum]
  exact ⟨h, fun hq => by rw [h, hq]; norm_num⟩

/-- Witness for C4 at concrete values. -/
theorem roundtrip_witness :
    sfcmrPandoraOf (sfcconcOf 2 3 5) 3 5 (1 / 4) = 2 * 1.0e9 / (1 - 1 / 4) :=
  (roundtrip_theorem 2 3 5 (1 / 4) (by norm_num) (by norm_num)).1

/-! ## C6 -/

/-- If no line of the file carries either coordinate label, the metadata
scan makes no progress: whatever fuel it is given, it has not produced a
result (at end of file the loop keeps reading the stringified empty bytes
object, which matches no label). -/
theorem scanLatLon_none (pf : String → ℚ) :
    ∀ fuel lines,
      (∀ l ∈ lines,
        pyContains (strB (l ++ "\\n")) "Location latitude" = false
        ∧ pyContains (strB (l ++ "\\n")) "Location longitude" = false) →
      scanLatLon pf fuel lines none none = none := by
  intro fuel
  induction fuel with
  | zero => intro lines _; rfl
  | succ n ih =>
    intro lines hl
    cases lines with
    | nil =>
      have h1 : pyContains (strB "") "Location latitude" = false := by decide
      have h2 : pyContains (strB "") "Location longitude" = false := by decide
      simp only [scanLatLon, pyReadline, h1, h2, Bool.false_eq_true, if_false]
      exact ih [] (by simp)
    | cons l ls =>
      obtain ⟨h1, h2⟩ := hl l (List.mem_cons_self l ls)
      simp only [scanLatLon, pyReadline, h1, h2, Bool.false_eq_true, if_false]
      exact ih ls (fun x hx => hl x (List.mem_cons_of_mem l hx))

set_option maxRecDepth 40000 in
/-- C6 (code bug): on a well-formed 95-line observation file that carries no
"Location latitude"/"Location longitude" line, the coordinate scan never
terminates — for every iteration budget it has produced nothing (first
conjunct), so `_read_pandora` never returns: the `NONTERMINATION` marker of
the embedding stands for the unbounded `while` loop of the source (second
conjunct), where the claimed behavior would be a `MissingMetadataError`. -/
theorem metadata_scan_never_terminates :
    ∀ fuel : ℕ,
      scanLatLon egParsers.pfloat fuel
          (List.replicate 94 "pad" ++ [egDataLine]) none none = none
      ∧ _read_pandora egParsers fuel (List.replicate 94 "pad" ++ [egDataLine])
          = Except.error "NONTERMINATION" := by
  intro fuel
  have hscan : scanLatLon egParsers.pfloat fuel
      (List.replicate 94 "pad" ++ [egDataLine]) none none = none :=
    scanLatLon_none egParsers.pfloat fuel _ (by decide)
  refine ⟨hscan, ?_⟩
  have hrows : ((List.replicate 94 "pad" ++ [egDataLine]).drop 94).mapM
      (parseRecord egParsers) = Except.ok [⟨0, 0, 0, 0, 0⟩] := by rfl
  simp only [_read_pandora, hrows, Except.bind, bind]
  rw [if_neg (by simp)]
  rw [hscan]

/-! ## C5 -/

/-- Counterexample to C5 as stated: with the chemistry dataset already
cached, a *meteorology* file missing from the file system does not leave the
record's fields at their sentinel — `_match_cf` raises `FileNotFoundError`
out of `xr.open_dataset` (there is no `os.path.isfile` guard on the met and
pbl families), and `main` has no handler for it, so the run aborts: no
outcome of the form `Except.ok _` is produced (second conjunct). -/
theorem missing_met_file_counterexample :
    _match_cf strf0 ⟨"c<col>", "p"⟩ [] ⟨0, 0, 0, 1, 0⟩ 0 0
        [("chm", "cchm")] [("chm", ⟨"cchm", ⟨0, [0], 0, [0], [0], [0], [0]⟩⟩)]
      = Except.error "FileNotFoundError"
    ∧ ∀ out, _match_cf strf0 ⟨"c<col>", "p"⟩ [] ⟨0, 0, 0, 1, 0⟩ 0 0
        [("chm", "cchm")] [("chm", ⟨"cchm", ⟨0, [0], 0, [0], [0], [0], [0]⟩⟩)]
      ≠ Except.ok out := by
  have h : _match_cf strf0 ⟨"c<col>", "p"⟩ [] ⟨0, 0, 0, 1, 0⟩ 0 0
      [("chm", "cchm")] [("chm", ⟨"cchm", ⟨0, [0], 0, [0], [0], [0], [0]⟩⟩)]
      = Except.error "FileNotFoundError" := by rfl
  refine ⟨h, ?_⟩
  intro out hout
  rw [h] at hout
  exact Except.noConfusion hout

/-- C5 (corrected): only the chemistry family is guarded.  First conjunct:
when the chemistry path is not the cached one and the file is absent,
`_match_cf` returns normally with every derived field still the `np.nan`
sentinel and both caches untouched, and the orchestrator moves on to the
next record.  Second conjunct: when the chemistry dataset resolves (here:
cache hit) but the *meteorology* file is absent, `_match_cf` raises
`FileNotFoundError` instead — there is no guard on the met (or pbl) family,
and no handler up the stack, so a single missing met/pbl model file aborts
the run. -/
theorem missing_model_file_behavior (strf : String → ℤ → String)
    (args : CFArgs) (fs : List (String × DSContent)) (row : Row)
    (lat lon : ℚ) (fnl : List (String × String))
    (dsl : List (String × Dataset)) :
    (cacheLookup fnl dsl "chm"
        (pyReplace (strf args.cf_template (roundH row.date)) "<col>" "chm")
        = CacheStep.miss →
      dget fs (pyReplace (strf args.cf_template (roundH row.date)) "<col>"
        "chm") = none →
      _match_cf strf args fs row lat lon fnl dsl
        = Except.ok (nanMatchResult, fnl, dsl))
    ∧ (∀ ds, cacheLookup fnl dsl "chm"
        (pyReplace (strf args.cf_template (roundH row.date)) "<col>" "chm")
        = CacheStep.hit ds →
      cacheLookup fnl dsl "met"
        (pyReplace (strf args.cf_template (roundH row.date)) "<col>" "met")
        = CacheStep.miss →
      dget fs (pyReplace (strf args.cf_template (roundH row.date)) "<col>"
        "met") = none →
      _match_cf strf args fs row lat lon fnl dsl
        = Except.error "FileNotFoundError") := by
  constructor
  · intro hmiss habsent
    simp only [_match_cf, hmiss, habsent, bind, Except.bind, pure, Except.pure]
  · intro ds hhit hmmiss hmabsent
    simp only [_match_cf, hhit, bind, Except.bind, pure, Except.pure,
      openFam, hmmiss, open_dataset, hmabsent]

/-- Witness for C5 with empty caches and an empty file system. -/
theorem missing_model_file_witness :
    _match_cf strf0 ⟨"c<col>", "p"⟩ [] ⟨0, 0, 0, 1, 0⟩ 0 0 [] []
      = Except.ok (nanMatchResult, [], []) :=
  (missing_model_file_behavior strf0 ⟨"c<col>", "p"⟩ [] ⟨0, 0, 0, 1, 0⟩
    0 0 [] []).1 rfl rfl

/-! ## C9 -/

/-- `roundH` really is nearest-hour rounding: its value is a whole hour at
most half an hour away from the input. -/
theorem roundH_spec (t : ℤ) : 3600 ∣ roundH t ∧ |roundH t - t| ≤ 1800 := by
  have h0 : 0 ≤ t % 3600 := Int.emod_nonneg t (by norm_num)
  have h1 : t % 3600 < 3600 := Int.emod_lt_of_pos t (by norm_num)
  have hdvd : 3600 ∣ t - t % 3600 :=
    Dvd.intro (t / 3600) (by rw [Int.emod_def]; ring)
  constructor
  · simp only [roundH]
    split_ifs <;> omega
  · simp only [roundH]
    split_ifs <;> (rw [abs_le]; constructor <;> omega)

/-- C9 (confirmed), in four parts.  (1) `_match_cf` consults the formatter
only at the chemistry/meteorology template applied to the *hour-rounded*
timestamp and at the (distinct) boundary-layer template applied to the
*exact* timestamp: two formatters that agree on those two calls produce
identical results.  (2) The rounding is genuine nearest-hour rounding.
(3) A cache hit returns the cached handle with both caches unchanged, for
*every* file system — in particular no file is consulted or opened.
(4) A cache miss on an existing path opens that file and replaces the
family's cached entry. -/
theorem temporal_alignment_cache (args : CFArgs)
    (fs : List (String × DSContent)) (row : Row) (lat lon : ℚ)
    (fnl : List (String × String)) (dsl : List (String × Dataset)) :
    (∀ strf1 strf2 : String → ℤ → String,
        strf1 args.cf_template (roundH row.date)
          = strf2 args.cf_template (roundH row.date) →
        strf1 args.pbl_template row.date = strf2 args.pbl_template row.date →
        _match_cf strf1 args fs row lat lon fnl dsl
          = _match_cf strf2 args fs row lat lon fnl dsl)
    ∧ (∀ t : ℤ, 3600 ∣ roundH t ∧ |roundH t - t| ≤ 1800)
    ∧ (∀ fam path ds, cacheLookup fnl dsl fam path = CacheStep.hit ds →
        openFam fs fnl dsl fam path = Except.ok (ds, fnl, dsl))
    ∧ (∀ fam path c, cacheLookup fnl dsl fam path = CacheStep.miss →
        dget fs path = some c →
        openFam fs fnl dsl fam path
          = Except.ok (⟨path, c⟩, dset fnl fam path, dset dsl fam ⟨path, c⟩)) := by
  refine ⟨?_, roundH_spec, ?_, ?_⟩
  · intro strf1 strf2 hc hp
    simp only [_match_cf, hc, hp]
  · intro fam path ds hhit
    simp only [openFam, hhit]
  · intro fam path c hmiss hsome
    simp only [openFam, hmiss, open_dataset, hsome, bind, Except.bind]

/-- Witness for C9: a cache hit leaves everything untouched (even though the
file system does not contain the cached path), and a miss on an existing
path opens and caches it. -/
theorem temporal_alignment_cache_witness :
    openFam [("q", ⟨0, [0], 0, [0], [0], [0], [0]⟩)] [("chm", "p")]
        [("chm", ⟨"p", ⟨0, [0], 0, [0], [0], [0], [0]⟩⟩)] "chm" "p"
      = Except.ok (⟨"p", ⟨0, [0], 0, [0], [0], [0], [0]⟩⟩, [("chm", "p")],
          [("chm", ⟨"p", ⟨0, [0], 0, [0], [0], [0], [0]⟩⟩)])
    ∧ openFam [("q", ⟨0, [0], 0, [0], [0], [0], [0]⟩)] [("chm", "p")]
        [("chm", ⟨"p", ⟨0, [0], 0, [0], [0], [0], [0]⟩⟩)] "met" "q"
      = Except.ok (⟨"q", ⟨0, [0], 0, [0], [0], [0], [0]⟩⟩,
          dset [("chm", "p")] "met" "q",
          dset [("chm", ⟨"p", ⟨0, [0], 0, [0], [0], [0], [0]⟩⟩)] "met"
            ⟨"q", ⟨0, [0], 0, [0], [0], [0], [0]⟩⟩) :=
  ⟨(temporal_alignment_cache ⟨"c", "p"⟩
      [("q", ⟨0, [0], 0, [0], [0], [0], [0]⟩)] ⟨0, 0, 0, 1, 0⟩ 0 0
      [("chm", "p")] [("chm", ⟨"p", ⟨0, [0], 0, [0], [0], [0], [0]⟩⟩)]).2.2.1
      "chm" "p" _ rfl,
   (temporal_alignment_cache ⟨"c", "p"⟩
      [("q", ⟨0, [0], 0, [0], [0], [0], [0]⟩)] ⟨0, 0, 0, 1, 0⟩ 0 0
      [("chm", "p")] [("chm", ⟨"p", ⟨0, [0], 0, [0], [0], [0], [0]⟩⟩)]).2.2.2
      "met" "q" _ rfl rfl⟩

/-! ## C10 -/

/-- The three successive `.loc` filters are one filter by the conjunction of
the four conditions. -/
theorem filterPand_eq (today : ℤ) (rows : List Row) :
    filterPand today rows = rows.filter (keepRow today) := by
  unfold filterPand
  rw [List.filter_filter, List.filter_filter]
  apply List.filter_congr
  intro r _
  unfold keepRow
  by_cases hA : MINDATE ≤ r.date <;>
    by_cases hB : r.date ≤ maxdateOf today <;>
      by_cases hC : 0 < r.pandora_no2_l1hgt <;>
        by_cases hD : r.pandora_no2_l1hgt < 15 <;>
          simp [hA, hB, hC, hD]

/-- In-range indexing never raises. -/
theorem getv_lt (vals : List String) (i : ℕ) (h : i < vals.length) :
    getv vals i = Except.ok (vals.getD i "") := by
  cases hg : vals.get? i with
  | none => exact absurd (List.get?_eq_none.mp hg) (by omega)
  | some s =>
    rw [List.get?_eq_getElem?] at hg
    simp [getv, List.getD_eq_getElem?_getD, List.get?_eq_getElem?, hg]

/-- C10 (confirmed): the quality flag does not interfere with anything.
(1) The row filter is the conjunction of the date-window and layer-height
conditions; (2) it gives the same verdict on two records differing only in
the flag; (3) `_match_cf` computes identical derived values and caches for
them; (4) the flag is parsed from space-separated field 52 of a record line
(together with the other fixed field positions); (5) the parsed record —
flag included — is carried verbatim into the output row. -/
theorem qval_noninterference (strf : String → ℤ → String) (args : CFArgs)
    (fs : List (String × DSContent)) (lat lon : ℚ)
    (fnl : List (String × String)) (dsl : List (String × Dataset))
    (today : ℤ) (rows : List Row) (r : Row) (v : ℤ) (res : MatchResult)
    (P : PyParsers) :
    (filterPand today rows = rows.filter (keepRow today))
    ∧ (keepRow today { r with pandora_no2_qval := v } = keepRow today r)
    ∧ (_match_cf strf args fs { r with pandora_no2_qval := v } lat lon fnl dsl
        = _match_cf strf args fs r lat lon fnl dsl)
    ∧ (∀ line, 68 < (pySplit ((pySplit line ",").headD "") " ").length →
        parseRecord P line = Except.ok
          ⟨P.pdate ((pySplit ((pySplit line ",").headD "") " ").getD 0 ""),
           P.pint ((pySplit ((pySplit line ",").headD "") " ").getD 52 ""),
           P.pfloat ((pySplit ((pySplit line ",").headD "") " ").getD 55 ""),
           P.pfloat ((pySplit ((pySplit line ",").headD "") " ").getD 67 ""),
           P.pfloat ((pySplit ((pySplit line ",").headD "") " ").getD 68 "")⟩)
    ∧ ((mergeRow r res lat lon).row = r) := by
  refine ⟨filterPand_eq today rows, rfl, rfl, ?_, rfl⟩
  intro line h
  have h0 := getv_lt (pySplit ((pySplit line ",").headD "") " ") 0 (by omega)
  have h52 := getv_lt (pySplit ((pySplit line ",").headD "") " ") 52 (by omega)
  have h55 := getv_lt (pySplit ((pySplit line ",").headD "") " ") 55 (by omega)
  have h67 := getv_lt (pySplit ((pySplit line ",").headD "") " ") 67 (by omega)
  have h68 := getv_lt (pySplit ((pySplit line ",").headD "") " ") 68 (by omega)
  simp only [parseRecord, h0, h52, h55, h67, h68, bind, Except.bind]

set_option maxRecDepth 40000 in
/-- Witness for C10 on a concrete record, flag `7` against flag `0`. -/
theorem qval_noninterference_witness :
    keepRow 0 ⟨0, 7, 0, 1, 0⟩ = keepRow 0 ⟨0, 0, 0, 1, 0⟩
    ∧ _match_cf strf0 ⟨"c", "p"⟩ [] ⟨0, 7, 0, 1, 0⟩ 0 0 [] []
      = _match_cf strf0 ⟨"c", "p"⟩ [] ⟨0, 0, 0, 1, 0⟩ 0 0 [] []
    ∧ parseRecord egParsers egDataLine = Except.ok ⟨0, 0, 0, 0, 0⟩ :=
  ⟨(qval_noninterference strf0 ⟨"c", "p"⟩ [] 0 0 [] [] 0 [] ⟨0, 0, 0, 1, 0⟩ 7
      nanMatchResult egParsers).2.1,
   (qval_noninterference strf0 ⟨"c", "p"⟩ [] 0 0 [] [] 0 [] ⟨0, 0, 0, 1, 0⟩ 7
      nanMatchResult egParsers).2.2.1,
   by
    have h := (qval_noninterference strf0 ⟨"c", "p"⟩ [] 0 0 [] [] 0 []
      ⟨0, 0, 0, 1, 0⟩ 7 nanMatchResult egParsers).2.2.2.1 egDataLine
      (by decide)
    rw [h]
    rfl⟩

/-! ## C7 and C8: the orchestrator -/

/-- Every row of a successfully processed batch is one of the input rows. -/
theorem processRows_mem (strf : String → ℤ → String) (args : CFArgs)
    (fs : List (String × DSContent)) (lat lon : ℚ) :
    ∀ rows fnl dsl ms,
      processRows strf args fs lat lon rows fnl dsl = Except.ok ms →
      ∀ m ∈ ms, m.row ∈ rows := by
  intro rows
  induction rows with
  | nil =>
    intro fnl dsl ms h m hm
    simp only [processRows, Except.ok.injEq] at h
    subst h
    simp at hm
  | cons r rest ih =>
    intro fnl dsl ms h m hm
    simp only [processRows] at h
    cases hmc : _match_cf strf args fs r lat lon fnl dsl with
    | error e =>
      rw [hmc] at h
      simp [bind, Except.bind] at h
    | ok v =>
      obtain ⟨res, fnl2, dsl2⟩ := v
      rw [hmc] at h
      simp only [bind, Except.bind] at h
      cases hpr : processRows strf args fs lat lon rest fnl2 dsl2 with
      | error e =>
        rw [hpr] at h
        simp at h
      | ok tail =>
        rw [hpr] at h
        simp only [Except.ok.injEq] at h
        subst h
        rcases List.mem_cons.mp hm with hm | hm
        · subst hm
          exact List.mem_cons_self _ _
        · exact List.mem_cons_of_mem _ (ih fnl2 dsl2 tail hpr m hm)

/-- Membership in the filtered batch is exactly the date-window and
layer-height conditions. -/
theorem mem_filterPand (today : ℤ) (rows : List Row) (r : Row) :
    r ∈ filterPand today rows ↔
      r ∈ rows ∧ MINDATE ≤ r.date ∧ r.date ≤ maxdateOf today ∧
        0 < r.pandora_no2_l1hgt ∧ r.pandora_no2_l1hgt < 15 := by
  rw [filterPand_eq, List.mem_filter]
  simp [keepRow, and_assoc]

/-- C7 (confirmed): (1) a record passes the pre-matching filter exactly when
its timestamp lies in the inclusive window from `MINDATE` to today minus
three days truncated to midnight, and its layer height lies strictly between
0 and 15 km; (2) consequently every row of a written output table satisfies
those bounds — a rejected record never appears in the output. -/
theorem filter_rejects_out_of_range (strf : String → ℤ → String)
    (args : CFArgs) (P : PyParsers) (scanFuel : ℕ) (basename : String)
    (w : World) :
    (∀ rows r, r ∈ filterPand w.today rows ↔
      r ∈ rows ∧ MINDATE ≤ r.date ∧ r.date ≤ maxdateOf w.today ∧
        0 < r.pandora_no2_l1hgt ∧ r.pandora_no2_l1hgt < 15)
    ∧ (∀ ms w2,
        mainRun strf args P scanFuel basename w
          = Except.ok (MainResult.wrote ms, w2) →
        ∀ m ∈ ms, MINDATE ≤ m.row.date ∧ m.row.date ≤ maxdateOf w.today ∧
          0 < m.row.pandora_no2_l1hgt ∧ m.row.pandora_no2_l1hgt < 15) := by
  constructor
  · intro rows r
    exact mem_filterPand w.today rows r
  · intro ms w2 h m hm
    simp only [mainRun] at h
    cases hobs : dget w.obsFiles ("obs/" ++ basename) with
    | none =>
      simp only [hobs] at h
      simp at h
    | some obsfile =>
      simp only [hobs] at h
      by_cases hout : (dget w.outFiles
          ("merged_csv/" ++ pyReplace basename ".txt" "+GEOSCF.csv")).isSome
          = true
      · rw [if_pos hout] at h
        simp at h
      · rw [if_neg hout] at h
        cases hrp : _read_pandora P scanFuel obsfile with
        | error e =>
          simp only [hrp] at h
          simp [bind, Except.bind] at h
        | ok t =>
          obtain ⟨pand, lat, lon⟩ := t
          simp only [hrp] at h
          simp only [bind, Except.bind] at h
          cases hproc : processRows strf args w.cfFiles lat lon
              (filterPand w.today pand) [] [] with
          | error e =>
            simp only [hproc] at h
            simp at h
          | ok merged =>
            simp only [hproc] at h
            simp only [Except.ok.injEq, Prod.mk.injEq,
              MainResult.wrote.injEq] at h
            obtain ⟨hms, -⟩ := h
            subst hms
            have hmm := processRows_mem strf args w.cfFiles lat lon _ [] []
              merged hproc m hm
            exact ((mem_filterPand w.today pand m.row).mp hmm).2

/-- C8 (confirmed): (1) a missing observation file makes the run a no-op on
the world, reported as a skip, not an error; (2) an already existing output
file likewise; (3) whatever a successful run did, running it again on the
resulting world performs no work: it returns one of the two skips and leaves
the world — in particular the written output file — exactly as it was. -/
theorem mainRun_idempotent (strf : String → ℤ → String) (args : CFArgs)
    (P : PyParsers) (scanFuel : ℕ) (basename : String) (w : World) :
    (dget w.obsFiles ("obs/" ++ basename) = none →
      mainRun strf args P scanFuel basename w
        = Except.ok (MainResult.skippedObs, w))
    ∧ (∀ f, dget w.obsFiles ("obs/" ++ basename) = some f →
      (dget w.outFiles
        ("merged_csv/" ++ pyReplace basename ".txt" "+GEOSCF.csv")).isSome
        = true →
      mainRun strf args P scanFuel basename w
        = Except.ok (MainResult.skippedOut, w))
    ∧ (∀ r w2, mainRun strf args P scanFuel basename w = Except.ok (r, w2) →
      mainRun strf args P scanFuel basename w2
          = Except.ok (MainResult.skippedObs, w2)
        ∨ mainRun strf args P scanFuel basename w2
          = Except.ok (MainResult.skippedOut, w2)) := by
  refine ⟨?_, ?_, ?_⟩
  · intro hobs
    simp only [mainRun, hobs]
  · intro f hobs hout
    simp only [mainRun, hobs, if_pos hout]
  · intro r w2 h
    simp only [mainRun] at h
    cases hobs : dget w.obsFiles ("obs/" ++ basename) with
    | none =>
      simp only [hobs] at h
      simp only [Except.ok.injEq, Prod.mk.injEq] at h
      obtain ⟨-, hw⟩ := h
      subst hw
      left
      simp only [mainRun, hobs]
    | some obsfile =>
      simp only [hobs] at h
      by_cases hout : (dget w.outFiles
          ("merged_csv/" ++ pyReplace basename ".txt" "+GEOSCF.csv")).isSome
          = true
      · rw [if_pos hout] at h
        simp only [Except.ok.injEq, Prod.mk.injEq] at h
        obtain ⟨-, hw⟩ := h
        subst hw
        right
        simp only [mainRun, hobs, if_pos hout]
      · rw [if_neg hout] at h
        cases hrp : _read_pandora P scanFuel obsfile with
        | error e =>
          simp only [hrp] at h
          simp [bind, Except.bind] at h
        | ok t =>
          obtain ⟨pand, lat, lon⟩ := t
          simp only [hrp] at h
          simp only [bind, Except.bind] at h
          cases hproc : processRows strf args w.cfFiles lat lon
              (filterPand w.today pand) [] [] with
          | error e =>
            simp only [hproc] at h
            simp at h
          | ok merged =>
            simp only [hproc] at h
            simp only [Except.ok.injEq, Prod.mk.injEq] at h
            obtain ⟨-, hw⟩ := h
            subst hw
            right
            simp only [mainRun, hobs, dget_dset_self, Option.isSome_some,
              if_true]

/-- Witness for C8: on a world with no files at all the run is a skip, and
running again skips again with the world unchanged. -/
theorem mainRun_idempotent_witness :
    mainRun strf0 ⟨"c", "p"⟩ egParsers 0 "b" ⟨[], [], [], 0⟩
      = Except.ok (MainResult.skippedObs, ⟨[], [], [], 0⟩)
    ∧ (mainRun strf0 ⟨"c", "p"⟩ egParsers 0 "b" ⟨[], [], [], 0⟩
          = Except.ok (MainResult.skippedObs, ⟨[], [], [], 0⟩)
        ∨ mainRun strf0 ⟨"c", "p"⟩ egParsers 0 "b" ⟨[], [], [], 0⟩
          = Except.ok (MainResult.skippedOut, ⟨[], [], [], 0⟩)) :=
  ⟨(mainRun_idempotent strf0 ⟨"c", "p"⟩ egParsers 0 "b" ⟨[], [], [], 0⟩).1 rfl,
   (mainRun_idempotent strf0 ⟨"c", "p"⟩ egParsers 0 "b" ⟨[], [], [], 0⟩).2.2
     MainResult.skippedObs ⟨[], [], [], 0⟩
     ((mainRun_idempotent strf0 ⟨"c", "p"⟩ egParsers 0 "b"
       ⟨[], [], [], 0⟩).1 rfl)⟩

set_option maxRecDepth 400000 in
/-- Witness for C7: the filter verdict on a concrete in-window record, and
the output-bound consequence for a concrete complete run (whose single
parsed record is filtered away, so the written table is empty). -/
theorem filter_rejects_witness :
    ((⟨MINDATE, 0, 0, 1, 0⟩ : Row)
        ∈ filterPand egWorld.today [⟨MINDATE, 0, 0, 1, 0⟩] ↔
      (⟨MINDATE, 0, 0, 1, 0⟩ : Row) ∈ [(⟨MINDATE, 0, 0, 1, 0⟩ : Row)]
      ∧ MINDATE ≤ MINDATE ∧ MINDATE ≤ maxdateOf egWorld.today
      ∧ (0 : ℚ) < 1 ∧ (1 : ℚ) < 15)
    ∧ (∀ m ∈ ([] : List MergedRow),
        MINDATE ≤ m.row.date ∧ m.row.date ≤ maxdateOf egWorld.today ∧
          0 < m.row.pandora_no2_l1hgt ∧ m.row.pandora_no2_l1hgt < 15) :=
  ⟨(filter_rejects_out_of_range strf0 ⟨"c", "p"⟩ egParsers 3 "f.txt"
      egWorld).1 [⟨MINDATE, 0, 0, 1, 0⟩] ⟨MINDATE, 0, 0, 1, 0⟩,
   (filter_rejects_out_of_range strf0 ⟨"c", "p"⟩ egParsers 3 "f.txt"
      egWorld).2 []
      ⟨[("obs/f.txt", egObsLines)], [("merged_csv/f+GEOSCF.csv", [])], [],
        2000000000⟩ (by rfl)⟩

/-- Witness for C6 at a concrete iteration budget. -/
theorem metadata_scan_never_terminates_witness :
    scanLatLon egParsers.pfloat 5
        (List.replicate 94 "pad" ++ [egDataLine]) none none = none
    ∧ _read_pandora egParsers 5 (List.replicate 94 "pad" ++ [egDataLine])
        = Except.error "NONTERMINATION" :=
  metadata_scan_never_terminates 5
